import Mathlib

/-!
Shallow embedding of `scripts/dev-server.py` (MarkViewer development server).

Python strings are modelled as `List Char`; `s.endswith(t)` becomes the
decidable suffix relation `t <:+ s`.  Pure methods become Lean functions;
the process-level behavior of `run_server` and the `__main__` block is
modelled as a function from an environment (directory existence, bind
outcome) to the sequence of externally visible actions together with the
final result (a `sys.exit` code or an uncaught exception).
-/

/-- Models Python `s.endswith(t)` for strings `s`, `t` represented as
character lists: `t` is a (case-sensitive) suffix of `s`. -/
def pyEndsWith (s t : List Char) : Prop := t <:+ s

instance (s t : List Char) : Decidable (pyEndsWith s t) :=
  inferInstanceAs (Decidable (t <:+ s))

/-- Models `CustomHTTPRequestHandler.guess_type`.  The parameter `base`
stands for the inherited default extension-based guesser
(`super().guess_type`), which per the spec yields a baseline
`(mimetype, encoding)` pair; it is kept abstract and universally
quantified in the theorems.  The body mirrors the `if`/`elif` chain of
the source: the chain replaces `mimetype` for the five listed extensions
and leaves `encoding` untouched. -/
def guess_type (base : List Char → String × Option String) (path : List Char) :
    String × Option String :=
  let r := base path
  let mimetype := r.1
  let encoding := r.2
  let mimetype :=
    if pyEndsWith path (".js".toList) then "application/javascript"
    else if pyEndsWith path (".mjs".toList) then "application/javascript"
    else if pyEndsWith path (".json".toList) then "application/json"
    else if pyEndsWith path (".css".toList) then "text/css"
    else if pyEndsWith path (".html".toList) then "text/html"
    else mimetype
  (mimetype, encoding)

/-- The extensions listed in the override chain of `guess_type`
(the MimeOverrideTable of the spec), in source order. -/
def overrideExtensions : List (List Char) :=
  [".js".toList, ".mjs".toList, ".json".toList, ".css".toList, ".html".toList]

/-- Transient per-response state of the request handler, as far as header
emission is concerned: the buffered header lines plus whether the header
block has been terminated.  The request method and status code are carried
along to express that header injection ignores them. -/
structure ResponseState where
  method : String
  statusCode : Nat
  headers : List (String × String)
  terminated : Bool
deriving DecidableEq

/-- Models `BaseHTTPRequestHandler.send_header`: buffers one
`(keyword, value)` header line at the end of the header list. -/
def send_header (st : ResponseState) (keyword value : String) : ResponseState :=
  { st with headers := st.headers ++ [(keyword, value)] }

/-- Models the inherited `BaseHTTPRequestHandler.end_headers` (the
standard header termination: blank line, flush). -/
def super_end_headers (st : ResponseState) : ResponseState :=
  { st with terminated := true }

/-- Models `CustomHTTPRequestHandler.end_headers`: sends the six fixed
headers, then delegates to the inherited termination. -/
def end_headers (st : ResponseState) : ResponseState :=
  let st := send_header st "Cache-Control" "no-cache, no-store, must-revalidate"
  let st := send_header st "Pragma" "no-cache"
  let st := send_header st "Expires" "0"
  let st := send_header st "X-Content-Type-Options" "nosniff"
  let st := send_header st "X-Frame-Options" "DENY"
  let st := send_header st "X-XSS-Protection" "1; mode=block"
  super_end_headers st

/-- The fixed header list of the spec (ResponseHeaderSet), in order. -/
def responseHeaderSet : List (String × String) :=
  [("Cache-Control", "no-cache, no-store, must-revalidate"),
   ("Pragma", "no-cache"),
   ("Expires", "0"),
   ("X-Content-Type-Options", "nosniff"),
   ("X-Frame-Options", "DENY"),
   ("X-XSS-Protection", "1; mode=block")]

example : pyEndsWith "app.js".toList (".js".toList) := by decide
example : ¬ pyEndsWith "app.JS".toList (".js".toList) := by decide
example : ¬ pyEndsWith "a.json".toList (".js".toList) := by decide
example :
    guess_type (fun _ => ("text/plain", none)) "app.js".toList =
      ("application/javascript", none) := by decide

/-- Two lists that are not suffixes of each other are never both suffixes
of the same list. -/
theorem not_suffix_of_suffix_of_indep {a b path : List Char} (h : a <:+ path)
    (hab : ¬ a <:+ b) (hba : ¬ b <:+ a) : ¬ b <:+ path :=
  fun hb => (List.suffix_or_suffix_of_suffix h hb).elim hab hba

/-- Externally visible actions of the process, in the order they occur.
`chdir` is a successful `os.chdir`; `bindSocket` is a successful bind of
the listening socket (the BOUND state of the spec); `closeSocket` is
`server_close` on the server socket; `printed` is a console line;
`serveLoop` marks the accept loop (`serve_forever`) running until the
interrupt that ends it. -/
inductive Act where
  | chdir (directory : String)
  | bindSocket (host : String) (port : Int)
  | closeSocket
  | printed (line : String)
  | serveLoop
deriving DecidableEq

/-- Python exceptions that can propagate out of the modelled code. -/
inductive PyExn where
  | fileNotFoundError (directory : String)
  | osError (errno : Nat)
  | valueError
deriving DecidableEq

/-- How the process run ends: `exit c` is `sys.exit(c)`; `uncaught e` is
an exception propagating to the interpreter (traceback on stderr, exit
status 1). -/
inductive Result where
  | exit (code : Nat)
  | uncaught (e : PyExn)
deriving DecidableEq

/-- Environment facts the run depends on: whether the configured
directory exists and is accessible (`os.chdir` succeeds), the outcome of
the socket bind (`none` = success, `some e` = `OSError` with errno `e`),
and `os.getcwd()` as observed after the directory change.  Only
terminating executions are modelled: a successful bind is followed by the
accept loop running until the external interrupt that ends it, which is
the only way `serve_forever` returns control. -/
structure Env where
  dirExists : Bool
  bindErrno : Option Nat
  cwd : String
deriving DecidableEq

/-- The port-in-use diagnostic printed by `run_server`. -/
def portInUseMsg (port : Int) : String :=
  "Error: Port " ++ toString port ++ " is already in use. Try a different port."

/-- The stop confirmation printed by `run_server` on interrupt. -/
def serverStoppedMsg : String := "\nServer stopped."

/-- Models the `try` block of `run_server`: construct the `TCPServer`
(which per CPython `socketserver` closes its fresh socket and re-raises
when the bind fails), print the startup lines, and serve until the
interrupt.  `OSError` with errno 48 is turned into the port-in-use
message and `sys.exit(1)`; any other `OSError` is re-raised; the
interrupt is turned into the stop message and `sys.exit(0)`, the `with`
statement having already closed the listening socket.  The startup line
quotes `os.getcwd()` (the source wraps it in single quotes, omitted
here). -/
def serverPhase (port : Int) (host : String) (env : Env) : List Act × Result :=
  match env.bindErrno with
  | some e =>
    if e = 48 then
      ([Act.closeSocket, Act.printed (portInUseMsg port)], Result.exit 1)
    else
      ([Act.closeSocket], Result.uncaught (PyExn.osError e))
  | none =>
    ([Act.bindSocket host port,
      Act.printed ("Serving directory " ++ env.cwd ++ " at http://" ++ host
        ++ ":" ++ toString port ++ "/")]
      ++ (if host = "0.0.0.0" then
            [Act.printed ("External access: http://<your-ip>:" ++ toString port ++ "/")]
          else [])
      ++ [Act.printed "Press Ctrl+C to stop the server",
          Act.serveLoop, Act.closeSocket,
          Act.printed serverStoppedMsg],
     Result.exit 0)

/-- Models `run_server(port, directory, host)`: change into the
configured directory when it is not `"."` (a failed `os.chdir` raises
`FileNotFoundError` before anything else happens — the `try` block has
not been entered, so nothing catches it), then run the server phase. -/
def run_server (port : Int) (directory host : String) (env : Env) :
    List Act × Result :=
  if directory = "." then
    serverPhase port host env
  else if env.dirExists then
    let r := serverPhase port host env
    (Act.chdir directory :: r.1, r.2)
  else
    ([], Result.uncaught (PyExn.fileNotFoundError directory))

/-- The ServerConfig of the spec: what argument resolution produces. -/
structure Config where
  port : Int
  directory : String
  host : String
deriving DecidableEq

/-- Default configuration (argparse defaults and legacy fallbacks). -/
def defaultConfig : Config := ⟨8080, ".", "0.0.0.0"⟩

/-- Helper for `pyInt`: value of a nonempty all-digit character list. -/
def digitsToNat (cs : List Char) : Option Nat :=
  if cs ≠ [] ∧ cs.all Char.isDigit then
    some (cs.foldl (fun acc c => 10 * acc + (c.toNat - 48)) 0)
  else none

/-- Models Python `int(s)` on command-line strings: an optional sign
followed by one or more decimal digits yields the integer, anything else
raises `ValueError` (`none`).  Surrounding whitespace and underscore
separators accepted by Python are not exercised by the claims and are
not modelled. -/
def pyInt (s : String) : Option Int :=
  match s.toList with
  | '-' :: rest => (digitsToNat rest).map (fun n => -(n : Int))
  | '+' :: rest => (digitsToNat rest).map (fun n => (n : Int))
  | cs => (digitsToNat cs).map (fun n => (n : Int))

/-- Character-list core of `pyStartsWith`: the first list read left to
right heads the second. -/
def leadsWith : List Char → List Char → Bool
  | [], _ => true
  | _ :: _, [] => false
  | c :: cs, d :: ds => c = d && leadsWith cs ds

/-- Models Python `s.startswith(t)` (case-sensitive). -/
def pyStartsWith (s t : String) : Bool := leadsWith t.toList s.toList

/-- Outcome of resolving the command-line arguments. -/
inductive ArgOutcome where
  | run (cfg : Config)
  | usageError
  | valueErrorExit
deriving DecidableEq

/-- Models `parser.parse_args()` over the three declared options
`--port` (alias `-p`, type `int`), `--directory` (alias `-d`), `--host`, given the argument
list and the configuration accumulated so far.  `none` is an argparse
rejection (usage message, `SystemExit(2)`): an unrecognized argument, a
flag missing its value, or a value the `int` conversion rejects.  Only
the space-separated flag forms are modelled; the argparse `=` and
abbreviated forms are not exercised by this repository or the claims. -/
def parse_args : List String → Config → Option Config
  | [], cfg => some cfg
  | a :: rest, cfg =>
    if a = "--port" ∨ a = "-p" then
      match rest with
      | [] => none
      | v :: rest2 =>
        match pyInt v with
        | some p => parse_args rest2 { cfg with port := p }
        | none => none
    else if a = "--directory" ∨ a = "-d" then
      match rest with
      | [] => none
      | v :: rest2 => parse_args rest2 { cfg with directory := v }
    else if a = "--host" then
      match rest with
      | [] => none
      | v :: rest2 => parse_args rest2 { cfg with host := v }
    else none

/-- Wraps `parse_args` the way the `__main__` block uses it: a parsed
configuration is run, an argparse rejection terminates the process with
the usage error. -/
def flagModeResolve (argv : List String) : ArgOutcome :=
  match parse_args argv defaultConfig with
  | some cfg => ArgOutcome.run cfg
  | none => ArgOutcome.usageError

/-- Models the argument dispatch of the `__main__` block over
`argv = sys.argv[1:]`.  When a first argument exists and does not start
with `-`, legacy positional mode applies: `int(sys.argv[1])` is the port
(`ValueError` propagates uncaught), `sys.argv[2]` when present is the
directory (default `"."`), `sys.argv[3]` when present is the host
(default `"0.0.0.0"`).  Otherwise argparse runs. -/
def resolveArgs (argv : List String) : ArgOutcome :=
  match argv with
  | [] => flagModeResolve []
  | first :: rest =>
    if pyStartsWith first "-" then
      flagModeResolve (first :: rest)
    else
      match pyInt first with
      | none => ArgOutcome.valueErrorExit
      | some p => ArgOutcome.run ⟨p, rest.getD 0 ".", rest.getD 1 "0.0.0.0"⟩

/-- Models the whole process: argument resolution followed by
`run_server`.  An argparse rejection exits with status 2 before any
socket or filesystem action; an uncaught `ValueError` from the legacy
`int()` likewise terminates the process before `run_server` is called. -/
def mainProgram (argv : List String) (env : Env) : List Act × Result :=
  match resolveArgs argv with
  | ArgOutcome.run cfg => run_server cfg.port cfg.directory cfg.host env
  | ArgOutcome.usageError => ([], Result.exit 2)
  | ArgOutcome.valueErrorExit => ([], Result.uncaught PyExn.valueError)

example : pyInt "8080" = some 8080 := by decide
example : pyInt "abc" = none := by decide
example : pyInt "-42" = some (-42) := by decide
example : resolveArgs ["9000", "docs"] = ArgOutcome.run ⟨9000, "docs", "0.0.0.0"⟩ := by decide
example : resolveArgs ["--port", "abc"] = ArgOutcome.usageError := by decide
example : resolveArgs ["abc"] = ArgOutcome.valueErrorExit := by decide
example :
    run_server 8080 "." "0.0.0.0" ⟨true, some 48, "/srv"⟩ =
      ([Act.closeSocket, Act.printed (portInUseMsg 8080)], Result.exit 1) := by decide

/-- All characters of the listed extensions are fixed by `Char.toLower`. -/
theorem overrideExtensions_lower_fixed :
    ∀ e ∈ overrideExtensions, ∀ c ∈ e, c.toLower = c := by decide

/-- No listed extension is a suffix of a different listed extension. -/
theorem overrideExtensions_suffix_antisymm :
    ∀ e1 ∈ overrideExtensions, ∀ e2 ∈ overrideExtensions, e1 <:+ e2 → e1 = e2 := by
  decide

/-- When none of the five listed extensions is a suffix of the path, the
override chain of `guess_type` falls through and the baseline pair is
returned as is. -/
theorem guess_type_eq_base_of_not_suffix
    (base : List Char → String × Option String) (path : List Char)
    (h1 : ¬ (".js".toList <:+ path)) (h2 : ¬ (".mjs".toList <:+ path))
    (h3 : ¬ (".json".toList <:+ path)) (h4 : ¬ (".css".toList <:+ path))
    (h5 : ¬ (".html".toList <:+ path)) :
    guess_type base path = base path := by
  have g1 : ¬ (['.', 'j', 's'] : List Char) <:+ path := h1
  have g2 : ¬ (['.', 'm', 'j', 's'] : List Char) <:+ path := h2
  have g3 : ¬ (['.', 'j', 's', 'o', 'n'] : List Char) <:+ path := h3
  have g4 : ¬ (['.', 'c', 's', 's'] : List Char) <:+ path := h4
  have g5 : ¬ (['.', 'h', 't', 'm', 'l'] : List Char) <:+ path := h5
  simp [guess_type, pyEndsWith, g1, g2, g3, g4, g5]

/-- C1: for every response state, whatever the request method and the
status code, `end_headers` appends exactly the six fixed headers of the
ResponseHeaderSet, in order, at the end of the buffered headers, and then
delegates to the standard header termination. -/
theorem end_headers_appends_fixed_set (st : ResponseState) :
    end_headers st =
      super_end_headers { st with headers := st.headers ++ responseHeaderSet } := by
  simp [end_headers, send_header, super_end_headers, responseHeaderSet]

/-- C6: content-type resolution returns the encoding component of the
baseline guess unchanged, for every path, overridden or not. -/
theorem guess_type_encoding_passthrough
    (base : List Char → String × Option String) (path : List Char) :
    (guess_type base path).2 = (base path).2 := rfl

/-- C2: for paths ending in one of the five listed extensions, the
resolved mimetype is the corresponding override value, whatever the
baseline guesser returned. -/
theorem guess_type_override_values
    (base : List Char → String × Option String) (path : List Char) :
    ((pyEndsWith path (".js".toList) ∨ pyEndsWith path (".mjs".toList)) →
        (guess_type base path).1 = "application/javascript") ∧
    (pyEndsWith path (".json".toList) → (guess_type base path).1 = "application/json") ∧
    (pyEndsWith path (".css".toList) → (guess_type base path).1 = "text/css") ∧
    (pyEndsWith path (".html".toList) → (guess_type base path).1 = "text/html") := by
  refine ⟨?_, ?_, ?_, ?_⟩
  · rintro (h | h)
    · have hj : (['.', 'j', 's'] : List Char) <:+ path := h
      simp [guess_type, pyEndsWith, hj]
    · have hm : (['.', 'm', 'j', 's'] : List Char) <:+ path := h
      have hj : ¬ (['.', 'j', 's'] : List Char) <:+ path :=
        not_suffix_of_suffix_of_indep hm (by decide) (by decide)
      simp [guess_type, pyEndsWith, hm, hj]
  · intro h
    have hn : (['.', 'j', 's', 'o', 'n'] : List Char) <:+ path := h
    have hj : ¬ (['.', 'j', 's'] : List Char) <:+ path :=
      not_suffix_of_suffix_of_indep hn (by decide) (by decide)
    have hm : ¬ (['.', 'm', 'j', 's'] : List Char) <:+ path :=
      not_suffix_of_suffix_of_indep hn (by decide) (by decide)
    simp [guess_type, pyEndsWith, hn, hj, hm]
  · intro h
    have hc : (['.', 'c', 's', 's'] : List Char) <:+ path := h
    have hj : ¬ (['.', 'j', 's'] : List Char) <:+ path :=
      not_suffix_of_suffix_of_indep hc (by decide) (by decide)
    have hm : ¬ (['.', 'm', 'j', 's'] : List Char) <:+ path :=
      not_suffix_of_suffix_of_indep hc (by decide) (by decide)
    have hn : ¬ (['.', 'j', 's', 'o', 'n'] : List Char) <:+ path :=
      not_suffix_of_suffix_of_indep hc (by decide) (by decide)
    simp [guess_type, pyEndsWith, hc, hj, hm, hn]
  · intro h
    have hh : (['.', 'h', 't', 'm', 'l'] : List Char) <:+ path := h
    have hj : ¬ (['.', 'j', 's'] : List Char) <:+ path :=
      not_suffix_of_suffix_of_indep hh (by decide) (by decide)
    have hm : ¬ (['.', 'm', 'j', 's'] : List Char) <:+ path :=
      not_suffix_of_suffix_of_indep hh (by decide) (by decide)
    have hn : ¬ (['.', 'j', 's', 'o', 'n'] : List Char) <:+ path :=
      not_suffix_of_suffix_of_indep hh (by decide) (by decide)
    have hc : ¬ (['.', 'c', 's', 's'] : List Char) <:+ path :=
      not_suffix_of_suffix_of_indep hh (by decide) (by decide)
    simp [guess_type, pyEndsWith, hh, hj, hm, hn, hc]

/-- C5: for every path that does not end in one of the five listed
extensions, content-type resolution returns the baseline (mimetype,
encoding) pair of the default guesser unmodified; being a total Lean
function it raises no error on any path. -/
theorem guess_type_unknown_extension_passthrough
    (base : List Char → String × Option String) (path : List Char)
    (h1 : ¬ pyEndsWith path (".js".toList)) (h2 : ¬ pyEndsWith path (".mjs".toList))
    (h3 : ¬ pyEndsWith path (".json".toList)) (h4 : ¬ pyEndsWith path (".css".toList))
    (h5 : ¬ pyEndsWith path (".html".toList)) :
    guess_type base path = base path :=
  guess_type_eq_base_of_not_suffix base path h1 h2 h3 h4 h5

/-- Evaluates C5 at a concrete input: a `.png` path passes the baseline
guess through unchanged. -/
theorem guess_type_unknown_extension_passthrough_witness :
    guess_type (fun _ => ("image/png", some "gzip")) "logo.png".toList =
      ("image/png", some "gzip") := by
  have h := guess_type_unknown_extension_passthrough
    (fun _ => ("image/png", some "gzip")) "logo.png".toList
    (by decide) (by decide) (by decide) (by decide) (by decide)
  simpa using h

/-- C10: override matching is case-sensitive: a path ending in an upper-
or mixed-case variant of a listed extension (a character list whose
lowercasing is the listed extension but which differs from it) matches no
override and the baseline pair is returned unchanged. -/
theorem guess_type_case_sensitive
    (base : List Char → String × Option String) (path v e : List Char)
    (he : e ∈ overrideExtensions) (hlow : v.map Char.toLower = e) (hne : v ≠ e)
    (hsuf : pyEndsWith path v) :
    guess_type base path = base path := by
  have hv : v <:+ path := hsuf
  have hnone : ∀ e2 ∈ overrideExtensions, ¬ e2 <:+ path := by
    intro e2 he2 hs2
    rcases List.suffix_or_suffix_of_suffix hs2 hv with h1 | h2
    · have hmap : e2.map Char.toLower <:+ v.map Char.toLower :=
        List.IsSuffix.map Char.toLower h1
      have he2fix : e2.map Char.toLower = e2 := by
        have hfix := overrideExtensions_lower_fixed e2 he2
        calc e2.map Char.toLower = e2.map id := List.map_congr_left hfix
          _ = e2 := List.map_id e2
      rw [he2fix, hlow] at hmap
      have he2e : e2 = e := overrideExtensions_suffix_antisymm e2 he2 e he hmap
      have hlen : e2.length = v.length := by
        have hl := congrArg List.length hlow
        rw [List.length_map] at hl
        rw [he2e, ← hl]
      have he2v : e2 = v := List.IsSuffix.eq_of_length h1 hlen
      exact hne (he2v ▸ he2e)
    · have hsub : v ⊆ e2 := List.IsSuffix.subset h2
      have hvfix : v.map Char.toLower = v := by
        have hfix := overrideExtensions_lower_fixed e2 he2
        calc v.map Char.toLower = v.map id :=
            List.map_congr_left (fun c hc => hfix c (hsub hc))
          _ = v := List.map_id v
      exact hne (hvfix.symm.trans hlow)
  exact guess_type_eq_base_of_not_suffix base path
    (hnone _ (by decide)) (hnone _ (by decide)) (hnone _ (by decide))
    (hnone _ (by decide)) (hnone _ (by decide))

/-- Evaluates C10 at a concrete input: a path ending in `.JS` gets no
override and keeps the baseline guess. -/
theorem guess_type_case_sensitive_witness :
    guess_type (fun _ => ("application/octet-stream", none)) "app.JS".toList =
      ("application/octet-stream", none) := by
  have h := guess_type_case_sensitive
    (fun _ => ("application/octet-stream", none)) "app.JS".toList
    ".JS".toList ".js".toList (by decide) (by decide) (by decide) (by decide)
  simpa using h

/-- Evaluates C2 on concrete inputs for each override entry, with a
baseline guesser that reports something else. -/
theorem guess_type_override_values_witness :
    (guess_type (fun _ => ("text/plain", none)) "mod.mjs".toList).1 =
      "application/javascript" ∧
    (guess_type (fun _ => ("text/plain", none)) "data.json".toList).1 =
      "application/json" ∧
    (guess_type (fun _ => ("text/plain", none)) "style.css".toList).1 =
      "text/css" ∧
    (guess_type (fun _ => ("text/plain", none)) "index.html".toList).1 =
      "text/html" :=
  ⟨(guess_type_override_values _ _).1 (Or.inr (by decide)),
   (guess_type_override_values _ _).2.1 (by decide),
   (guess_type_override_values _ _).2.2.1 (by decide),
   (guess_type_override_values _ _).2.2.2 (by decide)⟩

/-- C3: behavior of `run_server` at a bind failure with errno 98, the
address-in-use code on Linux.  The source compares the errno against the
literal 48 (the address-in-use code of the macOS/BSD family only), so
the comparison does not fire: the OSError is re-raised as an unhandled
fault, no message naming the port is printed, and the run does not end
in `sys.exit(1)` — contrary to the claim, which requires the
port-naming message and exit status 1 for every address-in-use failure
on any platform. -/
theorem run_server_addrinuse_linux_uncaught :
    run_server 8080 "." "0.0.0.0" ⟨true, some 98, "/srv"⟩ =
      ([Act.closeSocket], Result.uncaught (PyExn.osError 98)) ∧
    Act.printed (portInUseMsg 8080) ∉
      (run_server 8080 "." "0.0.0.0" ⟨true, some 98, "/srv"⟩).1 ∧
    (run_server 8080 "." "0.0.0.0" ⟨true, some 98, "/srv"⟩).2 ≠ Result.exit 1 := by
  decide

/-- C9: with the directory accessible and the bind succeeding, the run
terminates through the external interrupt and only through it: the serve
loop is followed by the socket release and then the stop confirmation,
and the process exits with status 0. -/
theorem run_server_interrupt_orderly_stop (port : Int) (directory host : String)
    (env : Env) (hd : directory = "." ∨ env.dirExists = true)
    (hb : env.bindErrno = none) :
    (run_server port directory host env).2 = Result.exit 0 ∧
    ∃ pre, (run_server port directory host env).1 =
      pre ++ [Act.serveLoop, Act.closeSocket, Act.printed serverStoppedMsg] := by
  by_cases hdir : directory = "."
  · constructor
    · simp [run_server, hdir, serverPhase, hb]
    · refine ⟨[Act.bindSocket host port,
        Act.printed ("Serving directory " ++ env.cwd ++ " at http://" ++ host
          ++ ":" ++ toString port ++ "/")]
        ++ (if host = "0.0.0.0" then
              [Act.printed ("External access: http://<your-ip>:" ++ toString port ++ "/")]
            else [])
        ++ [Act.printed "Press Ctrl+C to stop the server"], ?_⟩
      simp [run_server, hdir, serverPhase, hb]
  · have hde : env.dirExists = true := hd.resolve_left hdir
    constructor
    · simp [run_server, hdir, hde, serverPhase, hb]
    · refine ⟨Act.chdir directory :: ([Act.bindSocket host port,
        Act.printed ("Serving directory " ++ env.cwd ++ " at http://" ++ host
          ++ ":" ++ toString port ++ "/")]
        ++ (if host = "0.0.0.0" then
              [Act.printed ("External access: http://<your-ip>:" ++ toString port ++ "/")]
            else [])
        ++ [Act.printed "Press Ctrl+C to stop the server"]), ?_⟩
      simp [run_server, hdir, hde, serverPhase, hb]

/-- Evaluates C9 at a concrete input. -/
theorem run_server_interrupt_orderly_stop_witness :
    (run_server 8080 "." "0.0.0.0" ⟨true, none, "/srv"⟩).2 = Result.exit 0 ∧
    ∃ pre, (run_server 8080 "." "0.0.0.0" ⟨true, none, "/srv"⟩).1 =
      pre ++ [Act.serveLoop, Act.closeSocket, Act.printed serverStoppedMsg] :=
  run_server_interrupt_orderly_stop 8080 "." "0.0.0.0" ⟨true, none, "/srv"⟩
    (Or.inl rfl) rfl

/-- C8: for a configured directory other than ".", the directory change
is the first action whenever the bind is reached, and a non-existent
directory makes the run fail fast with the uncaught FileNotFoundError,
with no action performed at all — in particular no socket bind. -/
theorem run_server_chdir_before_bind (port : Int) (directory host : String)
    (env : Env) (hdir : directory ≠ ".") :
    (env.dirExists = false →
      run_server port directory host env =
        ([], Result.uncaught (PyExn.fileNotFoundError directory))) ∧
    (Act.bindSocket host port ∈ (run_server port directory host env).1 →
      (run_server port directory host env).1.head? = some (Act.chdir directory)) := by
  constructor
  · intro hde
    simp [run_server, hdir, hde]
  · intro hmem
    by_cases hde : env.dirExists = true
    · simp [run_server, hdir, hde]
    · rw [Bool.not_eq_true] at hde
      exfalso
      revert hmem
      simp [run_server, hdir, hde]

/-- Evaluates C8 at concrete inputs: a missing directory fails before any
action, and with an existing directory the change precedes the bind. -/
theorem run_server_chdir_before_bind_witness :
    run_server 8080 "docs" "0.0.0.0" ⟨false, none, "x"⟩ =
      ([], Result.uncaught (PyExn.fileNotFoundError "docs")) ∧
    (run_server 8080 "docs" "0.0.0.0" ⟨true, none, "x"⟩).1.head? =
      some (Act.chdir "docs") :=
  ⟨(run_server_chdir_before_bind 8080 "docs" "0.0.0.0" ⟨false, none, "x"⟩
      (by decide)).1 rfl,
   (run_server_chdir_before_bind 8080 "docs" "0.0.0.0" ⟨true, none, "x"⟩
      (by decide)).2 (by decide)⟩

/-- A port flag whose value the `int` conversion rejects makes
`parse_args` fail (argparse usage rejection). -/
theorem parse_args_port_bad (flag : String) (hflag : flag = "--port" ∨ flag = "-p")
    (v : String) (rest : List String) (cfg : Config) (hv : pyInt v = none) :
    parse_args (flag :: v :: rest) cfg = none := by
  simp only [parse_args]
  rw [if_pos hflag]
  simp [hv]

/-- C4 counterexample: with the legacy positional form, a non-numeric
port value does not produce a usage error: the run ends in the uncaught
ValueError from `int("abc")` (interpreter traceback, exit status 1),
which is a different outcome from the argparse usage rejection. -/
theorem resolveArgs_legacy_nonnumeric_not_usage :
    resolveArgs ["abc"] = ArgOutcome.valueErrorExit ∧
    ArgOutcome.valueErrorExit ≠ ArgOutcome.usageError := by decide

/-- C4 (amended): a non-numeric port value always terminates the process
before any socket or filesystem action: the flag form is rejected by
argparse with a usage error and exit status 2, while the legacy
positional form dies with the uncaught ValueError from `int()`
(non-zero interpreter exit); in both cases the action trace is empty, so
no socket creation or bind is ever attempted. -/
theorem nonnumeric_port_fails_before_bind (v : String) (rest : List String)
    (env : Env) (hv : pyInt v = none) :
    mainProgram ("--port" :: v :: rest) env = ([], Result.exit 2) ∧
    mainProgram ("-p" :: v :: rest) env = ([], Result.exit 2) ∧
    (pyStartsWith v "-" = false →
      mainProgram (v :: rest) env = ([], Result.uncaught PyExn.valueError)) := by
  refine ⟨?_, ?_, ?_⟩
  · have h1 : pyStartsWith "--port" "-" = true := by decide
    simp [mainProgram, resolveArgs, h1, flagModeResolve,
      parse_args_port_bad "--port" (Or.inl rfl) v rest defaultConfig hv]
  · have h1 : pyStartsWith "-p" "-" = true := by decide
    simp [mainProgram, resolveArgs, h1, flagModeResolve,
      parse_args_port_bad "-p" (Or.inr rfl) v rest defaultConfig hv]
  · intro hnf
    simp [mainProgram, resolveArgs, hnf, hv]

/-- Evaluates the amended C4 at concrete inputs: `--port abc` and the
legacy `abc`. -/
theorem nonnumeric_port_fails_before_bind_witness :
    mainProgram ["--port", "abc"] ⟨true, none, ""⟩ = ([], Result.exit 2) ∧
    mainProgram ["abc"] ⟨true, none, ""⟩ = ([], Result.uncaught PyExn.valueError) := by
  have h := nonnumeric_port_fails_before_bind "abc" [] ⟨true, none, ""⟩ (by decide)
  exact ⟨h.1, h.2.2 (by decide)⟩

/-- C7: a first argument that does not start with "-" selects the legacy
positional mode, which reads up to three values left to right as port,
directory and host, defaulting every omitted trailing value (directory
".", host "0.0.0.0"); a first argument starting with "-" is instead
resolved by argparse over the declared flags. -/
theorem legacy_positional_resolution (pstr d hstr : String) (rest : List String)
    (p : Int) (hp : pyInt pstr = some p) (hnf : pyStartsWith pstr "-" = false) :
    resolveArgs [pstr] = ArgOutcome.run ⟨p, ".", "0.0.0.0"⟩ ∧
    resolveArgs [pstr, d] = ArgOutcome.run ⟨p, d, "0.0.0.0"⟩ ∧
    resolveArgs [pstr, d, hstr] = ArgOutcome.run ⟨p, d, hstr⟩ ∧
    resolveArgs (pstr :: rest) =
      ArgOutcome.run ⟨p, rest.getD 0 ".", rest.getD 1 "0.0.0.0"⟩ ∧
    (∀ first rest2, pyStartsWith first "-" = true →
      resolveArgs (first :: rest2) = flagModeResolve (first :: rest2)) := by
  refine ⟨?_, ?_, ?_, ?_, ?_⟩
  · simp [resolveArgs, hnf, hp]
  · simp [resolveArgs, hnf, hp]
  · simp [resolveArgs, hnf, hp]
  · simp [resolveArgs, hnf, hp]
  · intro first rest2 hf
    simp [resolveArgs, hf]

/-- Evaluates C7 at concrete inputs for the three legacy arities. -/
theorem legacy_positional_resolution_witness :
    resolveArgs ["9000"] = ArgOutcome.run ⟨9000, ".", "0.0.0.0"⟩ ∧
    resolveArgs ["9000", "docs"] = ArgOutcome.run ⟨9000, "docs", "0.0.0.0"⟩ ∧
    resolveArgs ["9000", "docs", "127.0.0.1"] =
      ArgOutcome.run ⟨9000, "docs", "127.0.0.1"⟩ := by
  have h := legacy_positional_resolution "9000" "docs" "127.0.0.1" [] 9000
    (by decide) (by decide)
  exact ⟨h.1, h.2.1, h.2.2.1⟩
